import Mathlib

/-!
Verification of the EXIF-formatting and frame-layout logic of
`frame_mker.py` (CanonWaterMarkPhotoFrame).

Python floats are modelled as exact rationals (ℚ); Python ints as ℤ/ℕ.
Python-level exceptions that can escape a function are modelled with an
explicit error codomain (`Except PyErr _`); a Python function that returns
`None` on failure but cannot raise is modelled with `Option`.
-/

namespace FrameMker

/-- Exceptions that the modelled code can raise. -/
inductive PyErr
  | nameError
  | typeError
  | keyError
deriving DecidableEq

/-! ### Python numeric primitives -/

/-- Floor of a rational, computably: since the denominator is positive,
integer division of the numerator by the denominator is the floor. -/
def pyFloor (q : ℚ) : ℤ :=
  q.num / (q.den : ℤ)

/-- Python `int(x)` applied to a float: truncation toward zero. -/
def pyTrunc (q : ℚ) : ℤ :=
  if q < 0 then -(pyFloor (-q)) else pyFloor q

/-- Python `abs` on a float. -/
def pyAbs (q : ℚ) : ℚ :=
  if q < 0 then -q else q

/-- Python `round(x)` on a float: rounding half to even (banker's rounding). -/
def pyRound (q : ℚ) : ℤ :=
  let f := pyFloor q
  let r := q - (f : ℚ)
  if r < 1/2 then f
  else if 1/2 < r then f + 1
  else if f % 2 = 0 then f else f + 1

/-! ### Python fixed-point float formatting -/

/-- Left-pad a digit string with zeros to the requested width. -/
def padZeros (s : String) (n : ℕ) : String :=
  String.mk (List.replicate (n - s.length) '0') ++ s

/-- Python format spec `.Nf` applied to a (nonnegative, in all reachable
uses) float: the value scaled by 10 ^ N is rounded half-to-even and printed
with exactly N decimal places. -/
def formatFixed (q : ℚ) (n : ℕ) : String :=
  let m := pyRound (q * ((10 : ℚ) ^ n))
  let sign := if m < 0 then "-" else ""
  let ip := m.natAbs / 10 ^ n
  let fp := m.natAbs % 10 ^ n
  if n = 0 then sign ++ toString ip
  else sign ++ toString ip ++ "." ++ padZeros (toString fp) n

/-- Python `str.rstrip(c)` for a single strip character. -/
def rstrip (s : String) (c : Char) : String :=
  String.mk ((s.data.reverse.dropWhile (fun x => x == c)).reverse)

/-! ### Python values (EXIF raw values) -/

/-- Model of the dynamically-typed values an EXIF tag can hold.
`str` stands for non-numeric string values (the only kind the claims
mention); `seq` models both Python tuples and lists; `noneV` is Python
`None`. -/
inductive PyVal
  | int (n : ℤ)
  | float (q : ℚ)
  | str (s : String)
  | seq (xs : List PyVal)
  | noneV

/-- Python `float(x)` as used on EXIF values: succeeds exactly on numeric
scalars (ints, floats and float-like rationals), fails (raises, which the
callers catch) on `None`, sequences and non-numeric strings. -/
def tryFloat : PyVal → Option ℚ
  | .int n => some (n : ℚ)
  | .float q => some q
  | _ => none

/-- Python `int(x)` as used on the ISO value: ints pass through, floats
truncate toward zero, everything else raises (callers catch). -/
def pyToInt : PyVal → Option ℤ
  | .int n => some n
  | .float q => some (pyTrunc q)
  | _ => none

/-- Python `str(x)` as interpolated by the f-strings of the source.
Scalars render faithfully; nested sequences (which do not occur in the
claims) are rendered schematically. -/
def pyStr : PyVal → String
  | .int n => toString n
  | .float q =>
      if q.den = 1 then toString q.num ++ ".0"
      else toString q.num ++ "/" ++ toString q.den
  | .str s => s
  | .seq _ => "(...)"
  | .noneV => "None"

/-! ### `_rational_to_float` (frame_mker.py lines 45-69) -/

/-- Model of `_rational_to_float`: try `float(val)` first; failing that, a
2-element tuple/list is treated as (numerator, denominator) and divided,
where a zero denominator (Python `ZeroDivisionError`) or a non-coercible
element yields `None`; otherwise a final `float(val)` retry (which fails
exactly when the first attempt failed). -/
def rational_to_float (val : PyVal) : Option ℚ :=
  match tryFloat val with
  | some q => some q
  | none =>
    match val with
    | .seq [a, b] =>
      match tryFloat a, tryFloat b with
      | some num, some den => if den = 0 then none else some (num / den)
      | _, _ => none
    | _ => tryFloat val

/-! ### Metadata formatters (frame_mker.py lines 72-121 and 159-166) -/

/-- Model of `_format_exposure_time` (lines 72-96): normalize to seconds; sub-second
values try the fraction form `1/round(1/t)` accepted within a 2% relative
tolerance, else three decimals; values of a second or more render as the
nearest integer when within 0.05 of it, else with one decimal. -/
def format_exposure_time (val : PyVal) : Except PyErr (Option String) :=
  match rational_to_float val with
  | none => .ok none
  | some t =>
    if t ≤ 0 then .ok none
    else if t < 1 then
      let denom := pyRound (1 / t)
      if 0 < denom ∧ pyAbs (1 / (denom : ℚ) - t) < 2/100 * t
      then .ok (some ("1/" ++ toString denom ++ "s"))
      else .ok (some (formatFixed t 3 ++ "s"))
    else
      if pyAbs (t - (pyRound t : ℚ)) < 5/100
      then .ok (some (toString (pyRound t) ++ "s"))
      else .ok (some (formatFixed t 1 ++ "s"))

/-- Model of `_format_fnumber` (lines 99-109): normalize, render with one decimal
after an `F`, then strip trailing `0` characters and then trailing `.`
characters from the right. -/
def format_fnumber (val : PyVal) : Except PyErr (Option String) :=
  match rational_to_float val with
  | none => .ok none
  | some f =>
    if f ≤ 0 then .ok none
    else .ok (some (rstrip (rstrip ("F" ++ formatFixed f 1) '0') '.'))

/-- Model of `_format_focal` (lines 111-121): normalization and the sign check
mirror `_format_fnumber`, but the f-string on line 121 interpolates the
name `f`, which is not defined in this function (its local is `fl`), so
every positive normalized value raises `NameError`. -/
def format_focal (val : PyVal) : Except PyErr (Option String) :=
  match rational_to_float val with
  | none => .ok none
  | some fl =>
    if fl ≤ 0 then .ok none
    else .error .nameError

/-- The inline ISO formatting of `extract_camera_params` (lines 159-166):
a non-empty tuple/list contributes its first element interpolated as-is;
anything else goes through `int(...)`; any failure is caught and yields
the fail signal. -/
def format_iso (iso : PyVal) : Except PyErr (Option String) :=
  match iso with
  | .seq (x :: _) => .ok (some ("ISO" ++ pyStr x))
  | _ =>
    match pyToInt iso with
    | some n => .ok (some ("ISO" ++ toString n))
    | none => .ok none

/-! ### Camera parameters and the metadata line (lines 123-177, 329-335) -/

/-- The flat dictionary produced by `extract_camera_params`: each key is
present only when extraction and formatting succeeded. -/
structure CameraParams where
  brand : Option String := none
  model : Option String := none
  lens : Option String := none
  focal : Option String := none
  fnumber : Option String := none
  shutter : Option String := none
  iso : Option String := none

/-- Python `sep.join(pieces)`. -/
def joinSep (sep : String) : List String → String
  | [] => ""
  | [x] => x
  | x :: y :: rest => x ++ sep ++ joinSep sep (y :: rest)

/-- The loop `if params.get(key): pieces.append(params[key])`: keeps a
field only when it is present and truthy (a non-empty string). -/
def truthyFields (fields : List (Option String)) : List String :=
  fields.filterMap fun o =>
    match o with
    | some s => if s = "" then none else some s
    | none => none

/-- Metadata line assembly (lines 329-333): the present fields among
focal, fnumber, shutter, iso in that order, double-space separated, with
the sentinel when the list is empty. -/
def build_meta_line (p : CameraParams) : String :=
  let pieces := truthyFields [p.focal, p.fnumber, p.shutter, p.iso]
  if pieces.isEmpty then "No EXIF Data" else joinSep "  " pieces

/-! ### Logo pasting (lines 256-287) -/

/-- A decoded raster image; only its pixel size matters to the layout. -/
structure Img where
  width : ℕ
  height : ℕ

/-- Model of `paste_logo_center`: `decoded` is the outcome of the guarded
`Image.open` + RGBA conversion (`Option.none` when decoding failed, which
the function catches and turns into a zero-height skip).  When the logo
is taller than `maxHeight` the source rescales and then executes
`w, h = logo`, unpacking the Image object itself rather than its size,
which raises `TypeError`; otherwise the cursor advances by the rendered
height.  (The horizontal centering `x = (canvas.width - w) // 2` does not
affect the returned pair and is not modelled.) -/
def paste_logo_center (decoded : Option Img) (maxHeight : ℤ) (y : ℤ) :
    Except PyErr (ℤ × ℤ) :=
  match decoded with
  | Option.none => .ok (y, 0)
  | some logo =>
    if maxHeight < (logo.height : ℤ) then .error .typeError
    else .ok (y + (logo.height : ℤ), (logo.height : ℤ))

/-! ### Font loading (lines 219-232) -/

/-- The value `load_font` produces: a truetype face at a size, or the
library's built-in default face. -/
inductive FontResult
  | truetype (p : String) (size : ℤ)
  | defaultFont

/-- Model of `load_font`: walk the candidate list; a falsy or non-existing entry is
skipped (`fsExists` models `os.path.exists`, `loadOk` models whether
`ImageFont.truetype` succeeds).  When an existing candidate fails to load,
the handler's logging line references the undefined name `path` (the loop
variable is `p`), so a `NameError` escapes instead of the loop continuing.
With no loadable candidate the default face is returned. -/
def load_font (fsExists loadOk : String → Bool) (size : ℤ) :
    List String → Except PyErr FontResult
  | [] => .ok .defaultFont
  | p :: rest =>
    if p ≠ "" ∧ fsExists p then
      if loadOk p then .ok (.truetype p size) else .error .nameError
    else load_font fsExists loadOk size rest

/-! ### Templates and frame geometry (lines 183-215 and 339-371) -/

/-- An RGB color triple. -/
structure RGB where
  r : ℕ
  g : ℕ
  b : ℕ

/-- One entry of `DeFAULT_TEMPLATE`.  The catalog entries are plain dicts,
so keys that some entry omits are `Option`-valued (`minimal_black` omits
`meta_font_size_ratio` and `show_meta_text`; `show_brand_text` is read
with `.get(..., True)` so it is also optional). -/
structure Template where
  border_px : ℤ
  bottom_band_ratio : ℚ
  bg_color : RGB
  border_color : RGB
  text_color : RGB
  brand_font_size_ratio : ℚ
  meta_font_size_ratio : Option ℚ
  logo_max_height_ratio : ℚ
  gap_ratio : ℚ
  use_logo : Bool
  show_brand_text : Option Bool
  show_meta_text : Option Bool

/-- The `Nikon_like` catalog entry (lines 186-199). -/
def nikonLike : Template where
  border_px := 20
  bottom_band_ratio := 18/100
  bg_color := ⟨255, 255, 255⟩
  border_color := ⟨0, 0, 0⟩
  text_color := ⟨0, 0, 0⟩
  brand_font_size_ratio := 6/100
  meta_font_size_ratio := some (26/1000)
  logo_max_height_ratio := 8/100
  gap_ratio := 15/1000
  use_logo := true
  show_brand_text := some true
  show_meta_text := some true

/-- The `minimal_black` catalog entry (lines 202-213): it carries no
`meta_font_size_ratio` and no `show_meta_text` key. -/
def minimalBlack : Template where
  border_px := 0
  bottom_band_ratio := 14/100
  bg_color := ⟨0, 0, 0⟩
  border_color := ⟨255, 255, 255⟩
  text_color := ⟨255, 255, 255⟩
  brand_font_size_ratio := 55/1000
  meta_font_size_ratio := none
  logo_max_height_ratio := 8/100
  gap_ratio := 12/1000
  use_logo := true
  show_brand_text := some false
  show_meta_text := none

/-- Model of `DeFAULT_TEMPLATE.get(template_name, DeFAULT_TEMPLATE["Nikon_like"])`
(line 316): known names select their entry, anything else falls back. -/
def getTemplate (name : String) : Template :=
  if name = "Nikon_like" then nikonLike
  else if name = "minimal_black" then minimalBlack
  else nikonLike

/-- The derived pixel geometry of one composition. -/
structure Geometry where
  canvas_w : ℤ
  canvas_h : ℤ
  band_top : ℤ
  band_height : ℤ
  brand_font_size : ℤ
  meta_font_size : ℤ
  gap : ℤ
  logo_max_h : ℤ
  cur_y0 : ℤ

/-- The geometry computation of `make_framed_image` (lines 339-371) for a
source image of size `w × h`: band height is `int(ratio * w)` (truncation),
the canvas adds the border twice on each axis, font sizes and gaps are
ratios of the canvas width, and the starting cursor centers the block in
the band with a minimum top margin of 4.  Reading `meta_font_size_ratio`
from a template dict that lacks the key raises `KeyError` (line 363). -/
def frame_geometry (tpl : Template) (w h : ℕ) : Except PyErr Geometry :=
  let border_px := tpl.border_px
  let bang_h := pyTrunc (tpl.bottom_band_ratio * (w : ℚ))
  let canvas_w := (w : ℤ) + 2 * border_px
  let canvas_h := (h : ℤ) + bang_h + border_px * 2
  let band_top := border_px + (h : ℤ)
  let band_bottom := canvas_h - border_px
  let band_height := band_bottom - band_top
  let brand_font_size := max 12 (pyTrunc (tpl.brand_font_size_ratio * (canvas_w : ℚ)))
  match tpl.meta_font_size_ratio with
  | Option.none => .error .keyError
  | some mr =>
    let meta_font_size := max 10 (pyTrunc (mr * (canvas_w : ℚ)))
    let gap := pyTrunc (tpl.gap_ratio * (canvas_w : ℚ))
    let logo_max_h := pyTrunc (tpl.logo_max_height_ratio * (canvas_w : ℚ))
    let cur_y0 := band_top +
      max 4 (Int.fdiv (band_height - (logo_max_h + brand_font_size + meta_font_size + gap)) 2)
    .ok ⟨canvas_w, canvas_h, band_top, band_height,
      brand_font_size, meta_font_size, gap, logo_max_h, cur_y0⟩

/-! ### Output path normalization (lines 394-400) -/

/-- ASCII lowering of one character, as `str.lower` acts on the ASCII
range (the only characters the claims involve). -/
def pyCharLower (c : Char) : Char :=
  if 'A' ≤ c ∧ c ≤ 'Z' then Char.ofNat (c.toNat + 32) else c

/-- Python `out_path.lower()` restricted to ASCII. -/
def pyLower (s : String) : String :=
  String.mk (s.data.map pyCharLower)

/-- Python `s.endswith(t)`. -/
def pyEndsWith (s t : String) : Bool :=
  t.data.isSuffixOf s.data

/-- The extension defaulting of `make_framed_image` (lines 399-400): a
path whose lowercase form does not already end in the fixed extension
gets it appended.  (The preceding current-directory join of line 396
leaves the path's suffix unchanged and is not modelled.) -/
def ensure_jpg (out_path : String) : String :=
  if pyEndsWith (pyLower out_path) ".jpg" then out_path
  else out_path ++ ".jpg"

/-- Claim C4's exposure formatting policy, stated on the normalized value
`t` in the claim's own words; the source additionally guards the fraction
branch with `denom > 0`, which for `0 < t < 1` is redundant. -/
def exposure_claim_format (t : ℚ) : String :=
  if t < 1 then
    let denom := pyRound (1 / t)
    if pyAbs (1 / (denom : ℚ) - t) < 2/100 * t then "1/" ++ toString denom ++ "s"
    else formatFixed t 3 ++ "s"
  else
    if pyAbs (t - (pyRound t : ℚ)) < 5/100 then toString (pyRound t) ++ "s"
    else formatFixed t 1 ++ "s"

/-! ## Supporting lemmas -/

theorem pyFloor_eq_floor (q : ℚ) : pyFloor q = ⌊q⌋ :=
  Rat.floor_def.symm

theorem pyRound_pos_of_one_lt {q : ℚ} (h : 1 < q) : 0 < pyRound q := by
  have hf : 1 ≤ pyFloor q := by
    rw [pyFloor_eq_floor]
    exact Int.le_floor.mpr (by exact_mod_cast h.le)
  unfold pyRound
  dsimp only
  split
  · omega
  · split
    · omega
    · split <;> omega

theorem data_append (a b : String) : (a ++ b).data = a.data ++ b.data := by
  cases a
  cases b
  rfl

theorem ne_empty_of_data_ne_nil {s : String} (h : s.data ≠ []) : s ≠ "" := by
  intro he
  rw [he] at h
  exact h rfl

theorem append_ne_empty_of_left {a : String} (b : String) (ha : a ≠ "") :
    a ++ b ≠ "" := by
  apply ne_empty_of_data_ne_nil
  rw [data_append]
  intro hnil
  rcases List.append_eq_nil.mp hnil with ⟨h1, _⟩
  exact ha (by cases a; simpa using congrArg String.mk h1)

theorem append_ne_empty_of_right (a : String) {b : String} (hb : b ≠ "") :
    a ++ b ≠ "" := by
  apply ne_empty_of_data_ne_nil
  rw [data_append]
  intro hnil
  rcases List.append_eq_nil.mp hnil with ⟨_, h2⟩
  exact hb (by cases b; simpa using congrArg String.mk h2)

theorem mem_dropWhile_of_mem {p : Char → Bool} {a : Char} {l : List Char}
    (h : a ∈ l) (hp : p a = false) : a ∈ l.dropWhile p := by
  induction l with
  | nil => simp at h
  | cons x xs ih =>
    rw [List.dropWhile_cons]
    cases hx : p x with
    | true =>
      rcases List.mem_cons.mp h with rfl | hmem
      · rw [hp] at hx; exact absurd hx (by simp)
      · simpa using ih hmem
    | false =>
      simpa using h

theorem mem_rstrip {s : String} {c a : Char} (h : a ∈ s.data)
    (hne : (a == c) = false) : a ∈ (rstrip s c).data := by
  show a ∈ (s.data.reverse.dropWhile fun x => x == c).reverse
  exact List.mem_reverse.mpr (mem_dropWhile_of_mem (List.mem_reverse.mpr h) hne)

theorem fnumber_string_ne_empty (s : String) :
    rstrip (rstrip ("F" ++ s) '0') '.' ≠ "" := by
  have hF : 'F' ∈ ("F" ++ s).data := by
    rw [data_append]
    exact List.mem_append_left _ (by simp)
  have h1 : 'F' ∈ (rstrip ("F" ++ s) '0').data := mem_rstrip hF (by decide)
  have h2 : 'F' ∈ (rstrip (rstrip ("F" ++ s) '0') '.').data := mem_rstrip h1 (by decide)
  exact ne_empty_of_data_ne_nil (List.ne_nil_of_mem h2)

/-! ## Claims -/

/-- Claim C1: the spec says the focal-length formatter renders a positive
normalized value with one decimal plus a trailing unit, stripping a
trailing zero (so 50.0 gives a plain focal-length string).  The code
instead raises `NameError` on every positive normalized value, because
line 121 interpolates the undefined name `f` where the local is `fl` (and
the stripping calls run after the unit suffix is appended, so they could
never strip the zero either). -/
theorem focal_nameError_C1 :
    format_focal (.float 50) = .error .nameError := by
  norm_num [format_focal, rational_to_float, tryFloat]

/-- Claim C2: the exposure-time, f-number and ISO formatters are total
(modelled: they never produce an error value) and never yield an empty
string, but the focal formatter is not total: it raises `NameError` on
the positive normalized value 35.5, refuting the claim for the four
formatters together. -/
theorem formatter_totality_C2 :
    (∀ v, ∃ r, format_exposure_time v = .ok r ∧ r ≠ some "") ∧
    (∀ v, ∃ r, format_fnumber v = .ok r ∧ r ≠ some "") ∧
    (∀ v, ∃ r, format_iso v = .ok r ∧ r ≠ some "") ∧
    format_focal (.float (71/2)) = .error .nameError := by
  refine ⟨?_, ?_, ?_, ?_⟩
  · intro v
    unfold format_exposure_time
    cases hv : rational_to_float v with
    | none => exact ⟨none, rfl, by simp⟩
    | some t =>
      dsimp only
      by_cases h0 : t ≤ 0
      · exact ⟨none, by rw [if_pos h0], by simp⟩
      rw [if_neg h0]
      by_cases h1 : t < 1
      · rw [if_pos h1]
        by_cases h2 : 0 < pyRound (1 / t) ∧ pyAbs (1 / (pyRound (1 / t) : ℚ) - t) < 2/100 * t
        · refine ⟨_, by rw [if_pos h2], ?_⟩
          simp only [ne_eq, Option.some.injEq]
          exact append_ne_empty_of_right _ (by decide)
        · refine ⟨_, by rw [if_neg h2], ?_⟩
          simp only [ne_eq, Option.some.injEq]
          exact append_ne_empty_of_right _ (by decide)
      · rw [if_neg h1]
        by_cases h2 : pyAbs (t - (pyRound t : ℚ)) < 5/100
        · refine ⟨_, by rw [if_pos h2], ?_⟩
          simp only [ne_eq, Option.some.injEq]
          exact append_ne_empty_of_right _ (by decide)
        · refine ⟨_, by rw [if_neg h2], ?_⟩
          simp only [ne_eq, Option.some.injEq]
          exact append_ne_empty_of_right _ (by decide)
  · intro v
    unfold format_fnumber
    cases hv : rational_to_float v with
    | none => exact ⟨none, rfl, by simp⟩
    | some f =>
      dsimp only
      by_cases h0 : f ≤ 0
      · exact ⟨none, by rw [if_pos h0], by simp⟩
      · refine ⟨_, by rw [if_neg h0], ?_⟩
        simp only [ne_eq, Option.some.injEq]
        exact fnumber_string_ne_empty _
  · intro v
    unfold format_iso
    match v with
    | .seq (x :: _) =>
      refine ⟨_, rfl, ?_⟩
      simp only [ne_eq, Option.some.injEq]
      exact append_ne_empty_of_left _ (by decide)
    | .seq [] => exact ⟨none, rfl, by simp⟩
    | .int n =>
      refine ⟨_, rfl, ?_⟩
      simp only [ne_eq, Option.some.injEq]
      exact append_ne_empty_of_left _ (by decide)
    | .float q =>
      refine ⟨_, rfl, ?_⟩
      simp only [ne_eq, Option.some.injEq]
      exact append_ne_empty_of_left _ (by decide)
    | .str s => exact ⟨none, rfl, by simp⟩
    | .noneV => exact ⟨none, rfl, by simp⟩
  · norm_num [format_focal, rational_to_float, tryFloat]

/-- Claim C6: the rational normalizer is total and behaves per case: a
numeric scalar coerces to its value; a 2-element sequence yields numerator
over denominator, or the fail signal when an element is non-coercible or
the denominator is zero; null input and non-numeric strings yield the
fail signal. -/
theorem rational_to_float_C6 :
    (∀ q, rational_to_float (.float q) = some q) ∧
    (∀ n, rational_to_float (.int n) = some (n : ℚ)) ∧
    (∀ a b num den, tryFloat a = some num → tryFloat b = some den → den ≠ 0 →
      rational_to_float (.seq [a, b]) = some (num / den)) ∧
    (∀ a b, tryFloat a = none ∨ tryFloat b = none ∨ tryFloat b = some 0 →
      rational_to_float (.seq [a, b]) = none) ∧
    rational_to_float .noneV = none ∧
    (∀ s, rational_to_float (.str s) = none) := by
  refine ⟨fun q => rfl, fun n => rfl, ?_, ?_, rfl, fun s => rfl⟩
  · intro a b num den ha hb hd
    have hseq : tryFloat (.seq [a, b]) = none := rfl
    unfold rational_to_float
    rw [hseq]
    dsimp only
    rw [ha, hb]
    dsimp only
    rw [if_neg hd]
  · intro a b h
    have hseq : tryFloat (.seq [a, b]) = none := rfl
    unfold rational_to_float
    rw [hseq]
    dsimp only
    rcases h with ha | hb | hb0
    · rw [ha]
    · cases ha : tryFloat a with
      | none => rfl
      | some num => rw [hb]
    · cases ha : tryFloat a with
      | none => rfl
      | some num =>
        rw [hb0]
        dsimp only
        rw [if_pos rfl]

theorem rational_to_float_C6_witness :
    rational_to_float (.seq [.int 1, .int 200]) = some (1/200) ∧
    rational_to_float (.seq [.int 1, .int 0]) = none ∧
    rational_to_float (.seq [.str "x", .int 2]) = none := by
  refine ⟨?_, ?_, ?_⟩
  · have h := rational_to_float_C6.2.2.1 (.int 1) (.int 200)
      ((1 : ℤ) : ℚ) ((200 : ℤ) : ℚ) rfl rfl (by norm_num)
    rw [h]
    norm_num
  · exact rational_to_float_C6.2.2.2.1 (.int 1) (.int 0)
      (Or.inr (Or.inr (by norm_num [tryFloat])))
  · exact rational_to_float_C6.2.2.2.1 (.str "x") (.int 2) (Or.inl rfl)

/-- Claim C7: the spec says a candidate font that exists but fails to load
is logged and the search continues, and the function never raises.  In the
code the handler's logging line references the undefined name `path`, so
such a candidate raises `NameError` instead (first conjunct); the next
conjuncts record the behavior the claim gets right: the first existing,
loadable candidate is returned, and with no existing candidate the
built-in default face is used. -/
theorem load_font_nameError_C7 :
    load_font (fun p => p == "bad.ttf") (fun _ => false) 12 ["bad.ttf", "good.ttf"]
      = .error .nameError ∧
    load_font (fun p => p == "good.ttf") (fun _ => true) 12 ["missing.ttf", "good.ttf"]
      = .ok (.truetype "good.ttf" 12) ∧
    load_font (fun _ => false) (fun _ => true) 12 ["a.ttf", "b.ttf"]
      = .ok .defaultFont := by
  refine ⟨rfl, rfl, rfl⟩

/-- Claim C8: the spec says an oversized logo is scaled down to
`logo_max_height` and composition continues with no exception.  In the
code the downscale branch executes `w, h = logo` on the Image object, so a
decoded logo taller than the limit raises `TypeError` (first conjunct).
The remaining conjuncts record what the claim gets right: a logo within
the limit advances the cursor by its rendered height, and an undecodable
logo is skipped with height 0. -/
theorem paste_logo_typeError_C8 :
    paste_logo_center (some ⟨600, 240⟩) 100 50 = .error .typeError ∧
    paste_logo_center (some ⟨600, 80⟩) 100 50 = .ok (130, 80) ∧
    paste_logo_center Option.none 100 50 = .ok (50, 0) := by
  refine ⟨rfl, rfl, rfl⟩

/-- Claim C9: selecting the catalog template named minimal_black (present
in the catalog, so no default fallback applies) makes the composer raise
`KeyError` for every source size, because that record lacks the
`meta_font_size_ratio` key which line 363 reads unconditionally. -/
theorem minimal_black_keyError_C9 (w h : ℕ) :
    frame_geometry (getTemplate "minimal_black") w h = .error .keyError := by
  rfl

theorem minimal_black_keyError_C9_witness :
    frame_geometry (getTemplate "minimal_black") 175 100 = .error .keyError :=
  minimal_black_keyError_C9 175 100

/-- Claim C3 counterexample: for the `Nikon_like` template (band ratio
0.18, border 20) on a 175 × 100 source, the code's canvas height is
100 + int(31.5) + 40 = 171, while the claimed formula with `round`
gives 100 + 32 + 40 = 172. -/
theorem canvas_size_counterexample_C3 :
    (frame_geometry nikonLike 175 100).map Geometry.canvas_h ≠
      .ok ((100 : ℤ) + pyRound (nikonLike.bottom_band_ratio * (175 : ℚ))
        + 2 * nikonLike.border_px) := by
  have hcode : (frame_geometry nikonLike 175 100).map Geometry.canvas_h = .ok 171 := by
    norm_num [frame_geometry, nikonLike, pyTrunc, pyFloor, Except.map]
  have hclaim : (100 : ℤ) + pyRound (nikonLike.bottom_band_ratio * (175 : ℚ))
      + 2 * nikonLike.border_px = 172 := by
    norm_num [nikonLike, pyRound, pyFloor]
  rw [hcode, hclaim]
  intro h
  exact absurd (Except.ok.injEq .. ▸ h) (by norm_num)

/-- Claim C3 (amended): the output canvas measures
`(W + 2B, H + int(r*W) + 2B)` where the band height is the truncation
(Python `int`, not `round`) of the band ratio times the source width. -/
theorem canvas_size_C3 (tpl : Template) (mr : ℚ) (w h : ℕ)
    (hmr : tpl.meta_font_size_ratio = some mr) :
    ∃ g, frame_geometry tpl w h = .ok g ∧
      g.canvas_w = (w : ℤ) + 2 * tpl.border_px ∧
      g.canvas_h = (h : ℤ) + pyTrunc (tpl.bottom_band_ratio * (w : ℚ))
        + 2 * tpl.border_px := by
  unfold frame_geometry
  rw [hmr]
  exact ⟨_, rfl, rfl, by ring⟩

theorem canvas_size_C3_witness :
    (frame_geometry nikonLike 175 100).map Geometry.canvas_w = .ok 215 ∧
    (frame_geometry nikonLike 175 100).map Geometry.canvas_h = .ok 171 := by
  obtain ⟨g, hg, hw, hh⟩ := canvas_size_C3 nikonLike (26/1000) 175 100 rfl
  rw [hg]
  constructor
  · simp only [Except.map]
    rw [hw]
    norm_num [nikonLike]
  · simp only [Except.map]
    rw [hh]
    norm_num [nikonLike, pyTrunc, pyFloor]

/-- Claim C4: on every raw value normalizing to a positive `t`, the
exposure-time formatter implements exactly the claimed policy: below one
second the fraction `1/round(1/t)` within 2% relative tolerance, else
three decimals; otherwise integer seconds within 0.05 of the nearest
integer, else one decimal. -/
theorem exposure_policy_C4 (v : PyVal) (t : ℚ)
    (hv : rational_to_float v = some t) (ht : 0 < t) :
    format_exposure_time v = .ok (some (exposure_claim_format t)) := by
  unfold format_exposure_time exposure_claim_format
  rw [hv]
  dsimp only
  rw [if_neg (not_le.mpr ht)]
  by_cases h1 : t < 1
  · rw [if_pos h1, if_pos h1]
    have hd : 0 < pyRound (1 / t) := by
      apply pyRound_pos_of_one_lt
      rw [lt_div_iff₀ ht]
      linarith
    by_cases h2 : pyAbs (1 / (pyRound (1 / t) : ℚ) - t) < 2/100 * t
    · rw [if_pos ⟨hd, h2⟩, if_pos h2]
    · rw [if_neg (fun hc => h2 hc.2), if_neg h2]
  · rw [if_neg h1, if_neg h1]
    by_cases h2 : pyAbs (t - (pyRound t : ℚ)) < 5/100
    · rw [if_pos h2, if_pos h2]
    · rw [if_neg h2, if_neg h2]

theorem exposure_policy_C4_witness :
    format_exposure_time (.float (1/100)) = .ok (some "1/100s") ∧
    format_exposure_time (.float (3/10)) = .ok (some "0.300s") ∧
    format_exposure_time (.float 2) = .ok (some "2s") ∧
    format_exposure_time (.float (23/10)) = .ok (some "2.3s") := by
  refine ⟨?_, ?_, ?_, ?_⟩
  · rw [exposure_policy_C4 (.float (1/100)) (1/100) rfl (by norm_num)]
    norm_num [exposure_claim_format, pyRound, pyFloor, pyAbs, formatFixed, padZeros]
    decide
  · rw [exposure_policy_C4 (.float (3/10)) (3/10) rfl (by norm_num)]
    norm_num [exposure_claim_format, pyRound, pyFloor, pyAbs, formatFixed, padZeros]
    decide
  · rw [exposure_policy_C4 (.float 2) 2 rfl (by norm_num)]
    norm_num [exposure_claim_format, pyRound, pyFloor, pyAbs, formatFixed, padZeros]
    decide
  · rw [exposure_policy_C4 (.float (23/10)) (23/10) rfl (by norm_num)]
    norm_num [exposure_claim_format, pyRound, pyFloor, pyAbs, formatFixed, padZeros]
    decide

theorem truthyFields_eq {l : List (Option String)} (h : ∀ o ∈ l, o ≠ some "") :
    truthyFields l = l.filterMap id := by
  induction l with
  | nil => rfl
  | cons o rest ih =>
    have ho : o ≠ some "" := h o (by simp)
    have hrest : ∀ x ∈ rest, x ≠ some "" := fun x hx => h x (by simp [hx])
    unfold truthyFields
    rw [List.filterMap_cons, List.filterMap_cons]
    cases o with
    | none =>
      dsimp only
      exact ih hrest
    | some s =>
      have hs : s ≠ "" := fun he => ho (by rw [he])
      dsimp only [id]
      rw [if_neg hs]
      rw [show rest.filterMap _ = truthyFields rest from rfl, ih hrest]

theorem joinSep_ne_empty {x : String} (xs : List String) (hx : x ≠ "") :
    joinSep "  " (x :: xs) ≠ "" := by
  cases xs with
  | nil => simpa [joinSep] using hx
  | cons y ys =>
    rw [joinSep]
    exact append_ne_empty_of_left _ (append_ne_empty_of_left _ hx)

/-- Claim C5: for every CameraParams (whose present fields are non-empty,
per its construction), the metadata line is exactly the present fields
among focal, fnumber, shutter, iso in that order joined by a double
space, the sentinel when all four are absent, and never empty. -/
theorem meta_line_C5 (p : CameraParams)
    (hfocal : p.focal ≠ some "") (hfn : p.fnumber ≠ some "")
    (hsh : p.shutter ≠ some "") (hiso : p.iso ≠ some "") :
    (build_meta_line p =
      if ([p.focal, p.fnumber, p.shutter, p.iso].filterMap id).isEmpty
      then "No EXIF Data"
      else joinSep "  " ([p.focal, p.fnumber, p.shutter, p.iso].filterMap id)) ∧
    build_meta_line p ≠ "" := by
  have hall : ∀ o ∈ [p.focal, p.fnumber, p.shutter, p.iso], o ≠ some "" := by
    intro o ho
    simp only [List.mem_cons, List.mem_singleton] at ho
    rcases ho with rfl | rfl | rfl | rfl | h
    · exact hfocal
    · exact hfn
    · exact hsh
    · exact hiso
    · simp at h
  have ht := truthyFields_eq hall
  unfold build_meta_line
  rw [ht]
  refine ⟨rfl, ?_⟩
  cases hl : [p.focal, p.fnumber, p.shutter, p.iso].filterMap id with
  | nil => decide
  | cons x xs =>
    have hxmem : some x ∈ [p.focal, p.fnumber, p.shutter, p.iso] := by
      have hx : x ∈ [p.focal, p.fnumber, p.shutter, p.iso].filterMap id := by
        rw [hl]; exact List.mem_cons_self x xs
      rcases List.mem_filterMap.mp hx with ⟨o, ho, hid⟩
      cases o with
      | none => simp at hid
      | some s =>
        simp only [id] at hid
        rwa [hid] at ho
    have hx : x ≠ "" := fun he => (hall _ hxmem) (by rw [he])
    dsimp only
    rw [if_neg (by simp)]
    exact joinSep_ne_empty xs hx

theorem meta_line_C5_witness :
    build_meta_line ⟨none, none, none, some "50mm", none, none, some "ISO100"⟩
      = "50mm  ISO100" ∧
    build_meta_line ⟨none, none, none, none, none, none, none⟩ = "No EXIF Data" := by
  constructor
  · have h := meta_line_C5 ⟨none, none, none, some "50mm", none, none, some "ISO100"⟩
      (by decide) (by decide) (by decide) (by decide)
    rw [h.1]
    rfl
  · have h := meta_line_C5 ⟨none, none, none, none, none, none, none⟩
      (by decide) (by decide) (by decide) (by decide)
    rw [h.1]
    rfl

/-- Claim C10: an output path whose lowercased form does not end in the
fixed extension gets it appended (so a different image extension is kept
and suffixed), while a path already ending in it, case-insensitively, is
left unchanged. -/
theorem ensure_jpg_C10 (p : String) :
    (pyEndsWith (pyLower p) ".jpg" = false → ensure_jpg p = p ++ ".jpg") ∧
    (pyEndsWith (pyLower p) ".jpg" = true → ensure_jpg p = p) := by
  constructor <;> intro h <;> simp [ensure_jpg, h]

theorem ensure_jpg_C10_witness :
    ensure_jpg "photo.png" = "photo.png.jpg" ∧
    ensure_jpg "photo.JPG" = "photo.JPG" := by
  constructor
  · exact (ensure_jpg_C10 "photo.png").1 (by decide)
  · exact (ensure_jpg_C10 "photo.JPG").2 (by decide)

end FrameMker
